import Mathlib

/-!
Shallow embedding of the `httpdshutdown` Go package (`httpdshutdown.go`)
and proofs about its specification.

Modelling conventions:
* A Go `*Watcher` receiver is an `Option Watcher`: `none` is the nil pointer.
* A shutdown hook is modelled by a label together with the error it returns
  when invoked (`none` = nil error, `some msg` = an error whose `Error()`
  text is `msg`).  Functions that run hooks also return an execution log:
  the list of hooks actually invoked, in invocation order.
* A Go `panic` is an explicit `Outcome.panicked` value, distinct from a
  returned error.
* The `sync.WaitGroup` held by the watcher is its non-negative counter
  (`connsWG : Nat`); `Done()` on a counter that is already zero panics with
  the runtime message `sync: negative WaitGroup counter`, as the Go
  standard library does.
* The timed race inside `OnStop` (a goroutine doing `connsWG.Wait()`
  racing `time.After(timeoutMS)`) is abstracted sequentially: the drain
  branch wins exactly when the pending counter is zero at the time of the
  call, since `Wait` returns immediately on a zero counter and no other
  goroutine mutates the counter in this sequential model; otherwise the
  grace timer fires first.
-/

namespace Httpdshutdown

/-- The `http.ConnState` values relevant to `RecordConnState`. -/
inductive ConnState where
  | stateNew
  | stateActive
  | stateIdle
  | stateHijacked
  | stateClosed
deriving DecidableEq, Repr

/-- A shutdown hook: a label (to track identity in execution logs) and the
error the hook returns when called (`none` = success). -/
abbrev Hook : Type := Nat × Option String

/-- The `Watcher` struct: the `sync.WaitGroup` counter, the registered
shutdown hooks in registration order, and the grace period in
milliseconds. -/
structure Watcher where
  connsWG : Nat
  shutdownHooks : List Hook
  timeoutMS : Int
deriving DecidableEq, Repr

/-- Result of a Go call that can either finish normally or panic. -/
inductive Outcome (α : Type) where
  | ok : α → Outcome α
  | panicked : String → Outcome α
deriving DecidableEq, Repr

/-- `NewWatcher(timeoutMS, hooks...)`: rejects a negative timeout,
otherwise builds a watcher with a fresh (zero) wait-group counter and a
copy of the hook list. -/
def NewWatcher (timeoutMS : Int) (hooks : List Hook) : Except String Watcher :=
  if timeoutMS < 0 then
    Except.error "timeout must be a positive number"
  else
    Except.ok { connsWG := 0, shutdownHooks := hooks, timeoutMS := timeoutMS }

/-- `(*Watcher).RecordConnState(newState)`: panics on nil receiver;
`StateNew` is `connsWG.Add(1)`; `StateClosed` and `StateHijacked` are
`connsWG.Done()`, which panics if the counter is already zero; every other
state is ignored. -/
def RecordConnState (w : Option Watcher) (newState : ConnState) : Outcome Watcher :=
  match w with
  | none => Outcome.panicked "RecordConnState: receiver is nil"
  | some w =>
    match newState with
    | ConnState.stateNew => Outcome.ok { w with connsWG := w.connsWG + 1 }
    | ConnState.stateClosed =>
        if w.connsWG = 0 then Outcome.panicked "sync: negative WaitGroup counter"
        else Outcome.ok { w with connsWG := w.connsWG - 1 }
    | ConnState.stateHijacked =>
        if w.connsWG = 0 then Outcome.panicked "sync: negative WaitGroup counter"
        else Outcome.ok { w with connsWG := w.connsWG - 1 }
    | _ => Outcome.ok w

/-- The loop body of `RunHooks`: runs each hook in order, collecting
`"shutdown hook err: " ++ err` strings for the failing ones, and returns
the collected error strings together with the execution log. -/
def runHooksLoop : List Hook → List String × List Hook
  | [] => ([], [])
  | h :: rest =>
    let (errs, log) := runHooksLoop rest
    match h.2 with
    | some msg => (("shutdown hook err: " ++ msg) :: errs, h :: log)
    | none => (errs, h :: log)

/-- `(*Watcher).RunHooks()`: returns an error on nil receiver; otherwise
runs every registered hook and, if any error strings were collected,
returns `strings.Join(errStrs, "\n")` as a single error.  The second
component is the hook execution log. -/
def RunHooks (w : Option Watcher) : Option String × List Hook :=
  match w with
  | none => (some "RunHooks: receiver is nil", [])
  | some w =>
    let (errStrs, log) := runHooksLoop w.shutdownHooks
    if errStrs = [] then (none, log)
    else (some (String.intercalate "\n" errStrs), log)

/-- `(*Watcher).OnStop()`: returns an error on nil receiver; otherwise
races the drain-wait against the grace timer (see the module comment for
the abstraction), runs the hooks in whichever branch won — discarding
their error with `_ = w.RunHooks()` — and returns `nil` on the drained
branch or the timeout error on the timer branch. -/
def OnStop (w : Option Watcher) : Option String × List Hook :=
  match w with
  | none => (some "OnStop: receiver is nil", [])
  | some w =>
    if w.connsWG = 0 then
      (none, (RunHooks (some w)).2)
    else
      (some "OnStop: shutdown timed out", (RunHooks (some w)).2)

/-- The OS signals distinguished by `SigHandle`. -/
inductive Sig where
  | term
  | quit
  | hup
  | int
  | other : Nat → Sig
deriving DecidableEq, Repr

/-- The loop body of `SigHandle` over a finite signal sequence: a
termination-class signal calls `OnStop` and then sends exit code `1` when
it returned an error — and, there being no early return, also sends `0`;
a clean `OnStop` sends `0`; `SIGINT` panics; other signals are ignored.
Returns the emitted exit codes and the accumulated hook execution log. -/
def sigLoop (w : Watcher) : List Sig → Outcome (List Nat × List Hook)
  | [] => Outcome.ok ([], [])
  | s :: rest =>
    match s with
    | Sig.term | Sig.quit | Sig.hup =>
      let (stopErr, log) := OnStop (some w)
      let codes : List Nat :=
        match stopErr with
        | some _ => [1, 0]
        | none => [0]
      (match sigLoop w rest with
       | Outcome.ok (cs, ls) => Outcome.ok (codes ++ cs, log ++ ls)
       | Outcome.panicked m => Outcome.panicked m)
    | Sig.int => Outcome.panicked "panic exit"
    | Sig.other _ => sigLoop w rest

/-- `(*Watcher).SigHandle(sigs, exitcode)`: panics on nil receiver,
otherwise loops over the signal sequence as `sigLoop` does. -/
def SigHandle (w : Option Watcher) (sigs : List Sig) : Outcome (List Nat × List Hook) :=
  match w with
  | none => Outcome.panicked "SigHandler: Watcher is nil"
  | some w => sigLoop w sigs

/-- Feeding a sequence of connection-state events to `RecordConnState`,
threading the watcher state, stopping at the first panic. -/
def applyEvents (w : Watcher) : List ConnState → Outcome Watcher
  | [] => Outcome.ok w
  | e :: rest =>
    match RecordConnState (some w) e with
    | Outcome.ok w2 => applyEvents w2 rest
    | Outcome.panicked m => Outcome.panicked m

/-- The number of `StateNew` events in a sequence. -/
def opens : List ConnState → Nat
  | [] => 0
  | e :: rest => (if e = ConnState.stateNew then 1 else 0) + opens rest

/-- The number of `StateClosed` or `StateHijacked` events in a sequence. -/
def closes : List ConnState → Nat
  | [] => 0
  | e :: rest =>
    (if e = ConnState.stateClosed ∨ e = ConnState.stateHijacked then 1 else 0) + closes rest

/-- The error messages of the failing hooks, in registration order. -/
def failMsgs : List Hook → List String
  | [] => []
  | h :: rest =>
    match h.2 with
    | some m => m :: failMsgs rest
    | none => failMsgs rest

/-- The per-hook lines of the aggregated `RunHooks` error. -/
def failLines (hs : List Hook) : List String :=
  (failMsgs hs).map (fun m => "shutdown hook err: " ++ m)

theorem runHooksLoop_spec (hs : List Hook) : runHooksLoop hs = (failLines hs, hs) := by
  induction hs with
  | nil => rfl
  | cons h rest ih =>
    cases hr : h.2 <;> simp [runHooksLoop, failLines, failMsgs, ih, hr]

theorem RunHooks_eq (w : Watcher) :
    RunHooks (some w) =
      (if failLines w.shutdownHooks = [] then none
       else some (String.intercalate "\n" (failLines w.shutdownHooks)),
       w.shutdownHooks) := by
  simp only [RunHooks, runHooksLoop_spec]
  split <;> rfl

theorem OnStop_eq (w : Watcher) :
    OnStop (some w) =
      (if w.connsWG = 0 then none else some "OnStop: shutdown timed out",
       w.shutdownHooks) := by
  by_cases h : w.connsWG = 0 <;> simp [OnStop, h, RunHooks_eq]

theorem applyEvents_spec (evs : List ConnState) : ∀ (w : Watcher),
    (∀ n, closes (evs.take n) ≤ w.connsWG + opens (evs.take n)) →
    ∃ w2, applyEvents w evs = Outcome.ok w2 ∧
      w2.connsWG + closes evs = w.connsWG + opens evs ∧
      w2.shutdownHooks = w.shutdownHooks ∧ w2.timeoutMS = w.timeoutMS := by
  induction evs with
  | nil =>
    intro w _
    exact ⟨w, rfl, by simp [closes, opens], rfl, rfl⟩
  | cons e rest ih =>
    intro w h
    cases e with
    | stateNew =>
      obtain ⟨w2, ha, hc, hh, ht⟩ := ih { w with connsWG := w.connsWG + 1 }
        (fun n => by have := h (n + 1); simp [closes, opens] at this ⊢; omega)
      refine ⟨w2, ?_, ?_, hh, ht⟩
      · simpa [applyEvents, RecordConnState] using ha
      · simp [closes, opens] at hc ⊢; omega
    | stateClosed =>
      have hpos : 1 ≤ w.connsWG := by have := h 1; simp [closes, opens] at this; omega
      obtain ⟨w2, ha, hc, hh, ht⟩ := ih { w with connsWG := w.connsWG - 1 }
        (fun n => by have := h (n + 1); simp [closes, opens] at this ⊢; omega)
      refine ⟨w2, ?_, ?_, hh, ht⟩
      · have hz : ¬ w.connsWG = 0 := by omega
        simpa [applyEvents, RecordConnState, hz] using ha
      · simp [closes, opens] at hc ⊢; omega
    | stateHijacked =>
      have hpos : 1 ≤ w.connsWG := by have := h 1; simp [closes, opens] at this; omega
      obtain ⟨w2, ha, hc, hh, ht⟩ := ih { w with connsWG := w.connsWG - 1 }
        (fun n => by have := h (n + 1); simp [closes, opens] at this ⊢; omega)
      refine ⟨w2, ?_, ?_, hh, ht⟩
      · have hz : ¬ w.connsWG = 0 := by omega
        simpa [applyEvents, RecordConnState, hz] using ha
      · simp [closes, opens] at hc ⊢; omega
    | stateActive =>
      obtain ⟨w2, ha, hc, hh, ht⟩ := ih w
        (fun n => by have := h (n + 1); simp [closes, opens] at this ⊢; omega)
      refine ⟨w2, ?_, ?_, hh, ht⟩
      · simpa [applyEvents, RecordConnState] using ha
      · simp [closes, opens] at hc ⊢; omega
    | stateIdle =>
      obtain ⟨w2, ha, hc, hh, ht⟩ := ih w
        (fun n => by have := h (n + 1); simp [closes, opens] at this ⊢; omega)
      refine ⟨w2, ?_, ?_, hh, ht⟩
      · simpa [applyEvents, RecordConnState] using ha
      · simp [closes, opens] at hc ⊢; omega

/-- C1: for every constructed watcher, `OnStop` runs the registered hooks
exactly once (the execution log is exactly the registration list), strictly
after the drain-vs-timer race resolves, in both branches; it returns
success exactly when the pending count is zero (the drain branch won) and
the shutdown-timed-out error exactly when it is not (the grace timer
won). -/
theorem onStop_runs_hooks_once_and_reports_race (w : Watcher) :
    (OnStop (some w)).2 = w.shutdownHooks ∧
    ((OnStop (some w)).1 = none ↔ w.connsWG = 0) ∧
    ((OnStop (some w)).1 = some "OnStop: shutdown timed out" ↔ ¬ w.connsWG = 0) := by
  by_cases h : w.connsWG = 0 <;> simp [OnStop_eq, h]

/-- Witness for C1: a drained watcher runs its hook and a watcher with a
pending connection reports the timeout. -/
theorem onStop_runs_hooks_once_and_reports_race_witness :
    (OnStop (some ⟨0, [(0, none)], 3000⟩)).2 = [(0, none)] ∧
    (OnStop (some ⟨1, [(0, none)], 3000⟩)).1 = some "OnStop: shutdown timed out" :=
  ⟨(onStop_runs_hooks_once_and_reports_race ⟨0, [(0, none)], 3000⟩).1,
   (onStop_runs_hooks_once_and_reports_race ⟨1, [(0, none)], 3000⟩).2.2.mpr
     (by decide)⟩

/-- C2 counterexample: a drained watcher with a failing hook.  `OnStop`
returns `nil`, the very same result as for a watcher whose hook succeeds:
the hook failure is discarded, so the caller cannot distinguish "drained
fine, a hook failed" from "drained, hooks clean". -/
theorem onStop_hook_failure_not_reported :
    (OnStop (some ⟨0, [(0, some "hook failed")], 3000⟩)).1 = none ∧
    (OnStop (some ⟨0, [(0, some "hook failed")], 3000⟩)).1 =
      (OnStop (some ⟨0, [(0, none)], 3000⟩)).1 :=
  ⟨rfl, rfl⟩

/-- C2 amended: `OnStop` discards the result of running the hooks
(`_ = w.RunHooks()`); its return value depends only on the timeout status
of the race, never on hook failures. -/
theorem onStop_result_ignores_hook_failures (w : Watcher) :
    (OnStop (some w)).1 =
      (if w.connsWG = 0 then none else some "OnStop: shutdown timed out") := by
  simp [OnStop_eq]

/-- C3 counterexample: `RecordConnState` and `SigHandle` on a nil watcher
panic (crash the process) rather than returning a reportable error. -/
theorem nil_watcher_operations_can_crash :
    RecordConnState none ConnState.stateNew =
      Outcome.panicked "RecordConnState: receiver is nil" ∧
    SigHandle none [Sig.term] = Outcome.panicked "SigHandler: Watcher is nil" :=
  ⟨rfl, rfl⟩

/-- C3 amended: on a nil watcher, `RunHooks` and `OnStop` return a
reportable receiver-is-nil error, while `RecordConnState` and `SigHandle`
deliberately panic (crash). -/
theorem nil_watcher_behavior :
    RunHooks none = (some "RunHooks: receiver is nil", []) ∧
    OnStop none = (some "OnStop: receiver is nil", []) ∧
    (∀ s : ConnState,
      RecordConnState none s = Outcome.panicked "RecordConnState: receiver is nil") ∧
    (∀ sigs : List Sig,
      SigHandle none sigs = Outcome.panicked "SigHandler: Watcher is nil") :=
  ⟨rfl, rfl, fun _ => rfl, fun _ => rfl⟩

/-- C4 failing input: one pending connection (never drained), a single
terminate signal.  `OnStop` reports the timeout, and the dispatcher, for
lack of an early return after `exitcode <- 1`, emits exit code `1` and
then also exit code `0` — two exit codes where the claim requires exactly
one. -/
theorem sigterm_timeout_emits_two_exit_codes :
    SigHandle (some ⟨1, [(0, none)], 3000⟩) [Sig.term] =
      Outcome.ok ([1, 0], [(0, none)]) ∧
    ([1, 0] : List Nat).length ≠ 1 :=
  ⟨rfl, by decide⟩

/-- C5: `RunHooks` invokes every registered hook in registration order and
skips none (the execution log equals the registration list); it returns
success exactly when no hook failed, and otherwise a single aggregated
error joining the failing hooks' lines, one per line, in the order the
failures occurred. -/
theorem runHooks_order_and_aggregation (w : Watcher) :
    (RunHooks (some w)).2 = w.shutdownHooks ∧
    (RunHooks (some w)).1 =
      (if failMsgs w.shutdownHooks = [] then none
       else some (String.intercalate "\n" (failLines w.shutdownHooks))) := by
  refine ⟨by simp [RunHooks_eq], ?_⟩
  by_cases h : failMsgs w.shutdownHooks = [] <;>
    simp [RunHooks_eq, failLines, h]

/-- C6: `NewWatcher` with a negative grace period fails with the
invalid-configuration error and produces no watcher; with any non-negative
grace period and any hook list it returns a watcher whose pending count is
zero and whose hooks are stored in the given order. -/
theorem newWatcher_validates_grace_and_initializes (t : Int) (hooks : List Hook) :
    (t < 0 → NewWatcher t hooks = Except.error "timeout must be a positive number") ∧
    (0 ≤ t → NewWatcher t hooks =
      Except.ok { connsWG := 0, shutdownHooks := hooks, timeoutMS := t }) := by
  constructor <;> intro h
  · simp [NewWatcher, h]
  · have hn : ¬ t < 0 := by omega
    simp [NewWatcher, hn]

/-- Witness for C6 at the concrete grace periods -1 and 3000. -/
theorem newWatcher_validates_grace_and_initializes_witness :
    NewWatcher (-1) [] = Except.error "timeout must be a positive number" ∧
    NewWatcher 3000 [(0, none)] =
      Except.ok { connsWG := 0, shutdownHooks := [(0, none)], timeoutMS := 3000 } :=
  ⟨(newWatcher_validates_grace_and_initializes (-1) []).1 (by decide),
   (newWatcher_validates_grace_and_initializes 3000 [(0, none)]).2 (by decide)⟩

/-- C7: single events behave as claimed (`StateNew` increments,
`StateClosed`/`StateHijacked` decrement, `StateActive`/`StateIdle` are
no-ops), and for every well-formed event sequence fed to a fresh watcher
(no prefix closing more than it opened) no panic occurs and the final
pending count is the number of opened events minus the number of
closed/hijacked events — non-negative since closes never exceed opens. -/
theorem recordConnState_pending_count (w : Watcher) (evs : List ConnState)
    (h0 : w.connsWG = 0)
    (hwf : ∀ n < evs.length + 1, closes (evs.take n) ≤ opens (evs.take n)) :
    (∃ w2, applyEvents w evs = Outcome.ok w2 ∧
       w2.connsWG = opens evs - closes evs ∧ closes evs ≤ opens evs ∧
       w2.shutdownHooks = w.shutdownHooks ∧ w2.timeoutMS = w.timeoutMS) ∧
    (∀ u : Watcher,
      RecordConnState (some u) ConnState.stateNew =
        Outcome.ok { u with connsWG := u.connsWG + 1 } ∧
      RecordConnState (some u) ConnState.stateActive = Outcome.ok u ∧
      RecordConnState (some u) ConnState.stateIdle = Outcome.ok u ∧
      (¬ u.connsWG = 0 →
        RecordConnState (some u) ConnState.stateClosed =
          Outcome.ok { u with connsWG := u.connsWG - 1 } ∧
        RecordConnState (some u) ConnState.stateHijacked =
          Outcome.ok { u with connsWG := u.connsWG - 1 })) := by
  constructor
  · have hwf2 : ∀ n, closes (evs.take n) ≤ w.connsWG + opens (evs.take n) := by
      intro n
      rcases le_or_lt n evs.length with hle | hlt
      · have := hwf n (by omega)
        omega
      · have htake : evs.take n = evs := List.take_of_length_le (by omega)
        have := hwf evs.length (by omega)
        rw [List.take_length] at this
        rw [htake]
        omega
    obtain ⟨w2, ha, hc, hh, ht⟩ := applyEvents_spec evs w hwf2
    have hle : closes evs ≤ opens evs := by
      have := hwf evs.length (by omega)
      rw [List.take_length] at this
      exact this
    exact ⟨w2, ha, by omega, hle, hh, ht⟩
  · intro u
    refine ⟨rfl, rfl, rfl, fun hz => ?_⟩
    simp [RecordConnState, hz]

/-- Witness for C7 on the concrete scenario `opened, opened, hijacked,
closed` from a fresh watcher: no panic and a zero final pending count. -/
theorem recordConnState_pending_count_witness :
    closes [ConnState.stateNew, ConnState.stateNew,
            ConnState.stateHijacked, ConnState.stateClosed] ≤
      opens [ConnState.stateNew, ConnState.stateNew,
             ConnState.stateHijacked, ConnState.stateClosed] ∧
    applyEvents { connsWG := 0, shutdownHooks := [], timeoutMS := 3000 }
        [ConnState.stateNew, ConnState.stateNew,
         ConnState.stateHijacked, ConnState.stateClosed] =
      Outcome.ok { connsWG := 0, shutdownHooks := [], timeoutMS := 3000 } := by
  obtain ⟨⟨w2, ha, hc, hle, hh, ht⟩, _⟩ :=
    recordConnState_pending_count
      { connsWG := 0, shutdownHooks := [], timeoutMS := 3000 }
      [ConnState.stateNew, ConnState.stateNew,
       ConnState.stateHijacked, ConnState.stateClosed]
      rfl (by decide)
  refine ⟨hle, ?_⟩
  have hw2 : w2 = { connsWG := 0, shutdownHooks := [], timeoutMS := 3000 } := by
    cases w2
    simp_all [opens, closes]
  rw [hw2] at ha
  exact ha

/-- C8: a `StateClosed` or `StateHijacked` event on a watcher whose
pending count is already zero panics with the negative-wait-group runtime
error — the count is never silently clamped at zero. -/
theorem recordConnState_underflow_panics (w : Watcher) (h : w.connsWG = 0) :
    RecordConnState (some w) ConnState.stateClosed =
      Outcome.panicked "sync: negative WaitGroup counter" ∧
    RecordConnState (some w) ConnState.stateHijacked =
      Outcome.panicked "sync: negative WaitGroup counter" := by
  simp [RecordConnState, h]

/-- Witness for C8 on a concrete fresh watcher. -/
theorem recordConnState_underflow_panics_witness :
    RecordConnState (some { connsWG := 0, shutdownHooks := [], timeoutMS := 3000 })
        ConnState.stateClosed =
      Outcome.panicked "sync: negative WaitGroup counter" :=
  (recordConnState_underflow_panics
    { connsWG := 0, shutdownHooks := [], timeoutMS := 3000 } rfl).1

/-- C9 counterexample: two terminate signals handled by the dispatcher on
a drained watcher with one registered hook.  Each triggers a full `OnStop`
and the hook runs twice in the one shutdown episode — there is no
serialization or deduplication guard. -/
theorem two_signals_run_hooks_twice :
    SigHandle (some ⟨0, [(7, none)], 3000⟩) [Sig.term, Sig.term] =
      Outcome.ok ([0, 0], [(7, none), (7, none)]) :=
  rfl

/-- C9 amended: `OnStop` keeps no record of having run; every invocation
runs the full hook list again, so two terminate signals make the
dispatcher run the hooks twice. -/
theorem sigLoop_reruns_hooks_each_stop (w : Watcher) :
    ∃ cs : List Nat,
      sigLoop w [Sig.term, Sig.term] =
        Outcome.ok (cs, w.shutdownHooks ++ w.shutdownHooks) := by
  by_cases h : w.connsWG = 0
  · exact ⟨[0, 0], by simp [sigLoop, OnStop_eq, h]⟩
  · exact ⟨[1, 0, 1, 0], by simp [sigLoop, OnStop_eq, h]⟩

/-- C10: when at least one hook fails, the aggregated `RunHooks` error is
exactly the lines `"shutdown hook err: " ++ msg`, one per failing hook in
order, joined by single newline characters (no trailing newline). -/
theorem runHooks_error_message_format (w : Watcher)
    (h : ¬ failMsgs w.shutdownHooks = []) :
    (RunHooks (some w)).1 =
      some (String.intercalate "\n"
        ((failMsgs w.shutdownHooks).map (fun m => "shutdown hook err: " ++ m))) := by
  have hl : ¬ failLines w.shutdownHooks = [] := by
    simp [failLines, h]
  simp [RunHooks_eq, hl, failLines, h]

/-- Witness for C10: two failing hooks around a succeeding one. -/
theorem runHooks_error_message_format_witness :
    (RunHooks (some ⟨0, [(0, some "a"), (1, none), (2, some "b")], 5⟩)).1 =
      some "shutdown hook err: a\nshutdown hook err: b" := by
  rw [runHooks_error_message_format
    ⟨0, [(0, some "a"), (1, none), (2, some "b")], 5⟩ (by decide)]
  rfl

end Httpdshutdown
